import Mathlib

/-!
Verification of bench_ssh.py, a benchmark script that times ssh/scp
transfers for every key-exchange algorithm, MAC and cipher reported by
the local ssh client, and writes the successful timings to CSV files.

The external world (subprocess.run, os.system, time.time, the
filesystem) is modelled by an oracle Env: subprocess exit codes and
elapsed wall-clock durations are arbitrary functions of the argument
vector, and os.system exit codes arbitrary functions of the command
string.  Elapsed times are rationals standing in for the Python floats;
only their presence or absence is ever at stake in the claims.
-/

namespace BenchSsh

/-- Oracle for the external world: the exit code and the wall-clock
duration of a subprocess invocation (by argv), and the exit code of an
os.system shell command (by command string). -/
structure Env where
  run : List String → Int
  elapsed : List String → ℚ
  system : String → Int

/-- One trial record, the dict appended by the three test functions:
algo name, optional elapsed time, success flag
(bench_ssh.py lines 58-60, 77-79, 96-98). -/
structure TrialResult where
  algo : String
  time : Option ℚ
  success : Bool
deriving DecidableEq, Repr

/-- bench_ssh.py line 33: transfer_file = "/tmp/ssh-bench-random-data". -/
def transfer_file : String := "/tmp/ssh-bench-random-data"

/-- bench_ssh.py line 34, the source name is ssh_command_prefix. -/
def ssh_command_front : List String :=
  ["ssh", "-o", "StrictHostKeyChecking=no", "-o", "ControlMaster=no",
   "-o", "ControlPath=none", "-o", "Compression=no"]

/-- bench_ssh.py line 35: ssh_command_suffix = [host, ":"]. -/
def ssh_command_suffix (host : String) : List String := [host, ":"]

/-- bench_ssh.py line 36, the source name is scp_command_prefix. -/
def scp_command_front : List String :=
  ["scp", "-o", "StrictHostKeyChecking=no", "-o", "ControlMaster=no",
   "-o", "ControlPath=none", "-o", "Compression=no"]

/-- bench_ssh.py line 37: [transfer_file, host followed by ":/dev/null"]. -/
def scp_command_suffix (host : String) : List String :=
  [transfer_file, host ++ ":/dev/null"]

/-- bench_ssh.py line 38: [host, ":", transfer_file joined; "/dev/null"]. -/
def scp_recv_command_suffix (host : String) : List String :=
  [host ++ ":" ++ transfer_file, "/dev/null"]

/-- bench_ssh.py line 39: transfer_bytes = 1024 * 1024 * 100. -/
def transfer_bytes : Nat := 1024 * 1024 * 100

/-- The argv of one kex trial (bench_ssh.py line 54). -/
def kex_argv (host kex_u : String) : List String :=
  ssh_command_front ++ ["-o", "KexAlgorithms=" ++ kex_u] ++ ssh_command_suffix host

/-- The argv of one MAC trial (bench_ssh.py lines 70-74): cipher pinned
to aes256-ctr, MAC set to the candidate, direction picks the suffix. -/
def mac_argv (host : String) (receive : Bool) (mac_u : String) : List String :=
  scp_command_front ++ ["-o", "Ciphers=aes256-ctr", "-o", "Macs=" ++ mac_u]
    ++ (if receive then scp_recv_command_suffix host else scp_command_suffix host)

/-- The argv of one cipher trial (bench_ssh.py lines 89-93): cipher set
to the candidate, no MAC option, direction picks the suffix. -/
def cipher_argv (host : String) (receive : Bool) (cip_u : String) : List String :=
  scp_command_front ++ ["-o", "Ciphers=" ++ cip_u]
    ++ (if receive then scp_recv_command_suffix host else scp_command_suffix host)

/-- One timed invocation and the record built from its exit code: the
body shared by the loops of test_kex (lines 53-60), test_mac (69-79)
and test_cipher (88-98).  On exit code 0 the record carries the elapsed
time and success True, otherwise time None and success False. -/
def runTrial (env : Env) (argv : List String) (algo_u : String) : TrialResult :=
  let elapsed_time := env.elapsed argv
  if env.run argv = 0 then
    { algo := algo_u, time := some elapsed_time, success := true }
  else
    { algo := algo_u, time := none, success := false }

/-- bench_ssh.py lines 47-61: one record per kex algorithm, in list
order.  The kexes list is the decoded output of ssh -Q kex (line 44). -/
def test_kex (env : Env) (host : String) (kexes : List String) : List TrialResult :=
  kexes.map fun kex_u => runTrial env (kex_argv host kex_u) kex_u

/-- bench_ssh.py lines 63-80: one record per MAC, in list order.  The
macs list is the decoded output of ssh -Q mac (line 43). -/
def test_mac (env : Env) (host : String) (receive : Bool) (macs : List String) :
    List TrialResult :=
  macs.map fun mac_u => runTrial env (mac_argv host receive mac_u) mac_u

/-- bench_ssh.py lines 82-99: one record per cipher, in list order.
The ciphers list is the decoded output of ssh -Q cipher (line 42). -/
def test_cipher (env : Env) (host : String) (receive : Bool) (ciphers : List String) :
    List TrialResult :=
  ciphers.map fun cip_u => runTrial env (cipher_argv host receive cip_u) cip_u

/-- A CSV cell as handed to csv.writer.writerow: either a string or the
time value of a record (a float or None in the source). -/
inductive Cell where
  | str : String → Cell
  | val : Option ℚ → Cell
deriving DecidableEq, Repr

/-- The loop of output_as_tsv (bench_ssh.py lines 105-107): one data row
per record whose success flag is set, skipping the others. -/
def output_rows : List TrialResult → List (List Cell)
  | [] => []
  | r :: rest =>
    if r.success then [Cell.str r.algo, Cell.val r.time] :: output_rows rest
    else output_rows rest

/-- bench_ssh.py lines 101-107: the full sequence of rows written to one
CSV file, the header row followed by the data rows. -/
def output_as_tsv (results : List TrialResult) : List (List Cell) :=
  [Cell.str "algorithm", Cell.str "time"] :: output_rows results

/-- bench_ssh.py line 102: the output path built from the result type. -/
def output_file (result_type : String) : String :=
  "./ssh-bench-" ++ result_type ++ ".csv"

/-- One serialized CSV line with the default csv.writer dialect:
fields joined by commas. -/
def csv_line (fields : List String) : String := String.intercalate "," fields

/-- The filesystem as a map from path to file content (rows), absent
when no file exists at the path. -/
def FS : Type := String → Option (List (List Cell))

/-- Opening a path with mode w and writing content: the previous
content, if any, is discarded (bench_ssh.py line 102). -/
def fs_write (fs : FS) (name : String) (content : List (List Cell)) : FS :=
  fun n => if n = name then some content else fs n

/-- bench_ssh.py line 112: the os.system command generating the local
random payload. -/
def gen_local_cmd : String :=
  "head -c " ++ toString transfer_bytes ++ " </dev/urandom >" ++ transfer_file

/-- bench_ssh.py line 118: the os.system command generating the payload
on the remote host. -/
def gen_remote_cmd (host : String) : String :=
  "ssh " ++ host ++ " \"head -c " ++ toString transfer_bytes
    ++ " </dev/urandom >" ++ transfer_file ++ "\""

/-- Observable steps of the module body, in program order: a trial of a
named category, the two payload generations, and a CSV file write. -/
inductive Event where
  | trial : String → String → Event
  | gen_local : Event
  | gen_remote : Event
  | write_csv : String → Event
deriving DecidableEq, Repr

/-- Whether an event is a CSV file write. -/
def isWriteEvent : Event → Bool
  | Event.write_csv _ => true
  | _ => false

/-- Outcome of the module body: the event trace, the final filesystem,
and whether the run aborted with the unhandled raise. -/
structure RunResult where
  trace : List Event
  fs : FS
  aborted : Bool

/-- bench_ssh.py lines 110-128, the module body: the kex sweep, the
local payload generation (fatal on non-zero exit, lines 113-114), the
send-direction MAC and cipher sweeps, the remote payload generation
(fatal on non-zero exit, lines 119-120), the receive-direction MAC and
cipher sweeps, then the five CSV writes.  A fatal raise stops the run
with the filesystem untouched. -/
def main_body (env : Env) (host : String) (kexes macs ciphers : List String)
    (fs0 : FS) : RunResult :=
  let kex_result := test_kex env host kexes
  let ev_kex := kexes.map (Event.trial "kex")
  if env.system gen_local_cmd ≠ 0 then
    { trace := ev_kex ++ [Event.gen_local], fs := fs0, aborted := true }
  else
    let mac_result := test_mac env host false macs
    let cipher_result := test_cipher env host false ciphers
    let ev_send := macs.map (Event.trial "mac-send") ++ ciphers.map (Event.trial "cipher-send")
    if env.system (gen_remote_cmd host) ≠ 0 then
      { trace := ev_kex ++ [Event.gen_local] ++ ev_send ++ [Event.gen_remote],
        fs := fs0, aborted := true }
    else
      let mac_r_result := test_mac env host true macs
      let cipher_r_result := test_cipher env host true ciphers
      let ev_recv := macs.map (Event.trial "mac-receive")
        ++ ciphers.map (Event.trial "cipher-receive")
      let fs1 := fs_write fs0 (output_file "kex") (output_as_tsv kex_result)
      let fs2 := fs_write fs1 (output_file "mac-send") (output_as_tsv mac_result)
      let fs3 := fs_write fs2 (output_file "cipher-send") (output_as_tsv cipher_result)
      let fs4 := fs_write fs3 (output_file "mac-receive") (output_as_tsv mac_r_result)
      let fs5 := fs_write fs4 (output_file "cipher-receive") (output_as_tsv cipher_r_result)
      { trace := ev_kex ++ [Event.gen_local] ++ ev_send ++ [Event.gen_remote] ++ ev_recv
          ++ [Event.write_csv "kex", Event.write_csv "mac-send",
              Event.write_csv "cipher-send", Event.write_csv "mac-receive",
              Event.write_csv "cipher-receive"],
        fs := fs5, aborted := false }

/-- The values passed through -o options in an argv, scanning the list
for the -o flag and collecting the argument that follows each one. -/
def dashOValues : List String → List String
  | [] => []
  | a :: rest =>
    if a = "-o" then
      match rest with
      | [] => []
      | v :: rest2 => v :: dashOValues rest2
    else dashOValues rest

/-- Whether an -o option value sets the Macs option. -/
def isMacsOpt (s : String) : Bool :=
  decide (s.data.take 5 = "Macs=".data)

/-- Whether an -o option value sets the Ciphers option. -/
def isCiphersOpt (s : String) : Bool :=
  decide (s.data.take 8 = "Ciphers=".data)

/-- A concrete oracle where every invocation exits 0 after one time
unit, used to instantiate the universally quantified theorems. -/
def env0 : Env :=
  { run := fun _ => 0, elapsed := fun _ => 1, system := fun _ => 0 }

/-- A concrete oracle where every invocation exits 1 after one time
unit, used to instantiate the universally quantified theorems. -/
def env1 : Env :=
  { run := fun _ => 1, elapsed := fun _ => 1, system := fun _ => 1 }

/-- A concrete oracle where the local payload generation succeeds but
every other shell command, and every subprocess, exits 1. -/
def env2 : Env :=
  { run := fun _ => 1, elapsed := fun _ => 1,
    system := fun s => if s = gen_local_cmd then 0 else 1 }

/-- The empty filesystem. -/
def fsEmpty : FS := fun _ => none

theorem runTrial_algo (env : Env) (argv : List String) (a : String) :
    (runTrial env argv a).algo = a := by
  unfold runTrial; split <;> rfl

theorem runTrial_time_success (env : Env) (argv : List String) (a : String) :
    (runTrial env argv a).time.isSome = (runTrial env argv a).success := by
  unfold runTrial; split <;> rfl

theorem runTrial_success_eq (env : Env) (argv : List String) (a : String) :
    (runTrial env argv a).success = decide (env.run argv = 0) := by
  unfold runTrial; split <;> simp_all

theorem output_rows_eq (results : List TrialResult) :
    output_rows results
      = (results.filter fun r => r.success).map
          fun r => [Cell.str r.algo, Cell.val r.time] := by
  induction results with
  | nil => rfl
  | cons r rest ih => cases hr : r.success <;> simp [output_rows, hr, ih]

theorem map_algo_sweep (env : Env) (f : String → List String) (algos : List String) :
    (algos.map fun a => runTrial env (f a) a).map (fun r => r.algo) = algos := by
  induction algos with
  | nil => rfl
  | cons a rest ih => simp [runTrial_algo, ih]

theorem filter_success_sweep (env : Env) (f : String → List String)
    (algos : List String) :
    (algos.map fun a => runTrial env (f a) a).filter (fun r => r.success)
      = (algos.filter fun a => decide (env.run (f a) = 0)).map
          fun a => runTrial env (f a) a := by
  induction algos with
  | nil => rfl
  | cons a rest ih =>
    by_cases h : env.run (f a) = 0 <;> simp [runTrial_success_eq, h, ih]

theorem csv_names_sweep (env : Env) (f : String → List String) (algos : List String) :
    ((output_as_tsv (algos.map fun a => runTrial env (f a) a)).drop 1).map
        (fun row => row.head?)
      = (algos.filter fun a => decide (env.run (f a) = 0)).map
          (fun a => some (Cell.str a)) := by
  simp [output_as_tsv, output_rows_eq, filter_success_sweep, List.map_map,
    Function.comp, runTrial_algo]

/-- Claim C1: for every result sequence, the data rows of the CSV output
number exactly the records whose success flag is true, and the data rows
are precisely the rows of those successful records, so a record with a
false success flag contributes no row. -/
theorem claim_C1 (results : List TrialResult) :
    ((output_as_tsv results).drop 1).length
        = (results.filter (fun r => r.success)).length
    ∧ (output_as_tsv results).drop 1
        = (results.filter (fun r => r.success)).map
            (fun r => [Cell.str r.algo, Cell.val r.time]) := by
  refine ⟨?_, ?_⟩ <;> simp [output_as_tsv, output_rows_eq]

/-- Claim C2: every record produced by any of the three sweep functions
has a present elapsed time exactly when its success flag is true. -/
theorem claim_C2 (env : Env) (host : String) (kexes macs ciphers : List String)
    (receive : Bool) (r : TrialResult)
    (h : r ∈ test_kex env host kexes ∨ r ∈ test_mac env host receive macs
         ∨ r ∈ test_cipher env host receive ciphers) :
    r.time.isSome = r.success := by
  rcases h with h | h | h
  · rw [test_kex, List.mem_map] at h
    obtain ⟨a, _, rfl⟩ := h
    exact runTrial_time_success env (kex_argv host a) a
  · rw [test_mac, List.mem_map] at h
    obtain ⟨a, _, rfl⟩ := h
    exact runTrial_time_success env (mac_argv host receive a) a
  · rw [test_cipher, List.mem_map] at h
    obtain ⟨a, _, rfl⟩ := h
    exact runTrial_time_success env (cipher_argv host receive a) a

theorem claim_C2_witness :
    (⟨"curve25519-sha256", some 1, true⟩ : TrialResult).time.isSome
      = (⟨"curve25519-sha256", some 1, true⟩ : TrialResult).success :=
  claim_C2 env0 "h" ["curve25519-sha256"] [] [] false
    ⟨"curve25519-sha256", some 1, true⟩ (Or.inl (by decide))

/-- Claim C3: for every category the algorithm names of the result
sequence are exactly the discovered list in its order, and the names on
the CSV data rows are the discovered list in its order restricted to the
candidates whose trial exited 0. -/
theorem claim_C3 (env : Env) (host : String) (kexes macs ciphers : List String)
    (receive : Bool) :
    (test_kex env host kexes).map (fun r => r.algo) = kexes
  ∧ (test_mac env host receive macs).map (fun r => r.algo) = macs
  ∧ (test_cipher env host receive ciphers).map (fun r => r.algo) = ciphers
  ∧ ((output_as_tsv (test_kex env host kexes)).drop 1).map (fun row => row.head?)
      = (kexes.filter fun k => decide (env.run (kex_argv host k) = 0)).map
          (fun k => some (Cell.str k))
  ∧ ((output_as_tsv (test_mac env host receive macs)).drop 1).map (fun row => row.head?)
      = (macs.filter fun m => decide (env.run (mac_argv host receive m) = 0)).map
          (fun m => some (Cell.str m))
  ∧ ((output_as_tsv (test_cipher env host receive ciphers)).drop 1).map
        (fun row => row.head?)
      = (ciphers.filter fun c => decide (env.run (cipher_argv host receive c) = 0)).map
          (fun c => some (Cell.str c)) :=
  ⟨map_algo_sweep env (kex_argv host) kexes,
   map_algo_sweep env (mac_argv host receive) macs,
   map_algo_sweep env (cipher_argv host receive) ciphers,
   csv_names_sweep env (kex_argv host) kexes,
   csv_names_sweep env (mac_argv host receive) macs,
   csv_names_sweep env (cipher_argv host receive) ciphers⟩

/-- Claim C9: every sweep produces exactly one record per discovered
algorithm name, successful or not: the result sequence has the length of
the discovered list and its names are that list. -/
theorem claim_C9 (env : Env) (host : String) (kexes macs ciphers : List String)
    (receive : Bool) :
    (test_kex env host kexes).length = kexes.length
  ∧ (test_mac env host receive macs).length = macs.length
  ∧ (test_cipher env host receive ciphers).length = ciphers.length
  ∧ (test_kex env host kexes).map (fun r => r.algo) = kexes
  ∧ (test_mac env host receive macs).map (fun r => r.algo) = macs
  ∧ (test_cipher env host receive ciphers).map (fun r => r.algo) = ciphers :=
  ⟨List.length_map kexes _, List.length_map macs _, List.length_map ciphers _,
   map_algo_sweep env (kex_argv host) kexes,
   map_algo_sweep env (mac_argv host receive) macs,
   map_algo_sweep env (cipher_argv host receive) ciphers⟩

/-- Claim C10: when the discovered list is empty, and more generally
whenever no record of the sequence has a true success flag, the CSV
output is the lone header row, and writing it still creates the file,
whose content is then exactly that header row. -/
theorem claim_C10 (env : Env) (host rt : String) (fs0 : FS)
    (results : List TrialResult) (h : ∀ r ∈ results, r.success = false) :
    output_as_tsv (test_kex env host []) = [[Cell.str "algorithm", Cell.str "time"]]
  ∧ output_as_tsv results = [[Cell.str "algorithm", Cell.str "time"]]
  ∧ fs_write fs0 (output_file rt) (output_as_tsv results) (output_file rt)
      = some [[Cell.str "algorithm", Cell.str "time"]] := by
  have hrows : output_rows results = [] := by
    rw [output_rows_eq]
    have : results.filter (fun r => r.success) = [] := by
      rw [List.filter_eq_nil_iff]
      intro r hr
      simp [h r hr]
    rw [this]; rfl
  refine ⟨rfl, ?_, ?_⟩
  · rw [output_as_tsv, hrows]
  · rw [fs_write, output_as_tsv, hrows]
    simp

/-- Claim C4: when the local payload generation exits non-zero the run
aborts right after the kex sweep with the filesystem untouched, and when
the remote payload generation exits non-zero the run aborts right after
the send-direction sweeps with the filesystem untouched: in both cases
no further trial runs and no CSV file is written. -/
theorem claim_C4 (env : Env) (host : String) (kexes macs ciphers : List String)
    (fs0 : FS) :
    (env.system gen_local_cmd ≠ 0 →
      main_body env host kexes macs ciphers fs0
        = { trace := kexes.map (Event.trial "kex") ++ [Event.gen_local],
            fs := fs0, aborted := true })
  ∧ (env.system gen_local_cmd = 0 → env.system (gen_remote_cmd host) ≠ 0 →
      main_body env host kexes macs ciphers fs0
        = { trace := kexes.map (Event.trial "kex") ++ [Event.gen_local]
              ++ (macs.map (Event.trial "mac-send")
                  ++ ciphers.map (Event.trial "cipher-send"))
              ++ [Event.gen_remote],
            fs := fs0, aborted := true }) := by
  constructor
  · intro h
    rw [main_body]
    simp [h]
  · intro h1 h2
    rw [main_body]
    simp [h1, h2]

theorem claim_C4_witness :
    (main_body env1 "h" ["k"] ["m"] ["c"] fsEmpty).aborted = true
  ∧ (main_body env2 "h" ["k"] ["m"] ["c"] fsEmpty).aborted = true := by
  constructor
  · rw [(claim_C4 env1 "h" ["k"] ["m"] ["c"] fsEmpty).1 (by decide)]
  · rw [(claim_C4 env2 "h" ["k"] ["m"] ["c"] fsEmpty).2 (by decide) (by decide)]

/-- Claim C6: in a run where both payload generations succeed, the event
trace is the trials and generations of all five categories followed by
the five CSV writes, and no event of that preceding segment is a CSV
write: serialization happens only after the last trial of the last
category. -/
theorem claim_C6 (env : Env) (host : String) (kexes macs ciphers : List String)
    (fs0 : FS) (h1 : env.system gen_local_cmd = 0)
    (h2 : env.system (gen_remote_cmd host) = 0) :
    (main_body env host kexes macs ciphers fs0).trace
      = (kexes.map (Event.trial "kex") ++ [Event.gen_local]
          ++ (macs.map (Event.trial "mac-send")
              ++ ciphers.map (Event.trial "cipher-send"))
          ++ [Event.gen_remote]
          ++ (macs.map (Event.trial "mac-receive")
              ++ ciphers.map (Event.trial "cipher-receive")))
        ++ [Event.write_csv "kex", Event.write_csv "mac-send",
            Event.write_csv "cipher-send", Event.write_csv "mac-receive",
            Event.write_csv "cipher-receive"]
  ∧ ∀ e ∈ kexes.map (Event.trial "kex") ++ [Event.gen_local]
          ++ (macs.map (Event.trial "mac-send")
              ++ ciphers.map (Event.trial "cipher-send"))
          ++ [Event.gen_remote]
          ++ (macs.map (Event.trial "mac-receive")
              ++ ciphers.map (Event.trial "cipher-receive")),
      isWriteEvent e = false := by
  constructor
  · rw [main_body]
    simp [h1, h2]
  · intro e he
    cases e <;> simp_all [isWriteEvent]

theorem claim_C6_witness :
    (main_body env0 "h" ["k"] ["m"] ["c"] fsEmpty).trace
      = ((["k"].map (Event.trial "kex") ++ [Event.gen_local]
          ++ (["m"].map (Event.trial "mac-send")
              ++ ["c"].map (Event.trial "cipher-send"))
          ++ [Event.gen_remote]
          ++ (["m"].map (Event.trial "mac-receive")
              ++ ["c"].map (Event.trial "cipher-receive")))
        ++ [Event.write_csv "kex", Event.write_csv "mac-send",
            Event.write_csv "cipher-send", Event.write_csv "mac-receive",
            Event.write_csv "cipher-receive"])
  ∧ ∀ e ∈ ["k"].map (Event.trial "kex") ++ [Event.gen_local]
          ++ (["m"].map (Event.trial "mac-send")
              ++ ["c"].map (Event.trial "cipher-send"))
          ++ [Event.gen_remote]
          ++ (["m"].map (Event.trial "mac-receive")
              ++ ["c"].map (Event.trial "cipher-receive")),
      isWriteEvent e = false :=
  claim_C6 env0 "h" ["k"] ["m"] ["c"] fsEmpty rfl rfl

/-- Claim C7: the CSV output is exactly one header row with the fields
algorithm and time followed by one row per successful record, the header
serializes to the comma-delimited line algorithm,time, and writing is an
overwrite: after two writes to the same path the file holds only the
content of the second. -/
theorem claim_C7 (results results2 : List TrialResult) (fs0 : FS) (rt : String) :
    output_as_tsv results
      = [Cell.str "algorithm", Cell.str "time"]
        :: (results.filter (fun r => r.success)).map
            (fun r => [Cell.str r.algo, Cell.val r.time])
  ∧ csv_line ["algorithm", "time"] = "algorithm,time"
  ∧ fs_write (fs_write fs0 (output_file rt) (output_as_tsv results))
      (output_file rt) (output_as_tsv results2) (output_file rt)
      = some (output_as_tsv results2) := by
  refine ⟨?_, rfl, ?_⟩
  · rw [output_as_tsv, output_rows_eq]
  · simp [fs_write]

/-- Claim C8: the payload size constant is 104857600, which is 100 MiB,
and both payload generation commands ask head for exactly that many
bytes. -/
theorem claim_C8 (host : String) :
    transfer_bytes = 1024 * 1024 * 100
  ∧ transfer_bytes = 104857600
  ∧ gen_local_cmd = "head -c 104857600 </dev/urandom >/tmp/ssh-bench-random-data"
  ∧ gen_remote_cmd host
      = "ssh " ++ host
        ++ " \"head -c 104857600 </dev/urandom >/tmp/ssh-bench-random-data\"" := by
  refine ⟨rfl, rfl, rfl, ?_⟩
  simp only [gen_remote_cmd, String.append_assoc]
  congr 1

theorem dashOValues_ne (a : String) (rest : List String) (h : ¬ a = "-o") :
    dashOValues (a :: rest) = dashOValues rest := by
  rw [dashOValues.eq_def]
  simp [h]

theorem dashOValues_o (v : String) (rest : List String) :
    dashOValues ("-o" :: v :: rest) = v :: dashOValues rest := rfl

theorem dashOValues_nil : dashOValues [] = [] := rfl

theorem send_dest_ne_dash_o (host : String) : ¬ (host ++ ":/dev/null") = "-o" := by
  intro e
  have h1 := congrArg String.length e
  rw [String.length_append] at h1
  have l1 : (":/dev/null" : String).length = 10 := by decide
  have l2 : ("-o" : String).length = 2 := by decide
  rw [l1, l2] at h1
  omega

theorem recv_src_ne_dash_o (host : String) :
    ¬ (host ++ ":" ++ transfer_file) = "-o" := by
  intro e
  have h1 := congrArg String.length e
  rw [String.length_append, String.length_append] at h1
  have l1 : (":" : String).length = 1 := by decide
  have l2 : transfer_file.length = 26 := by decide
  have l3 : ("-o" : String).length = 2 := by decide
  rw [l1, l2, l3] at h1
  omega

theorem dashOValues_mac (host m : String) (receive : Bool) :
    dashOValues (mac_argv host receive m)
      = ["StrictHostKeyChecking=no", "ControlMaster=no", "ControlPath=none",
         "Compression=no", "Ciphers=aes256-ctr", "Macs=" ++ m] := by
  have htf : ¬ transfer_file = "-o" := by decide
  cases receive <;>
    simp [mac_argv, scp_command_front, scp_command_suffix, scp_recv_command_suffix,
      dashOValues_o, dashOValues_ne, dashOValues_nil, htf,
      send_dest_ne_dash_o host, recv_src_ne_dash_o host]

theorem dashOValues_cipher (host c : String) (receive : Bool) :
    dashOValues (cipher_argv host receive c)
      = ["StrictHostKeyChecking=no", "ControlMaster=no", "ControlPath=none",
         "Compression=no", "Ciphers=" ++ c] := by
  have htf : ¬ transfer_file = "-o" := by decide
  cases receive <;>
    simp [cipher_argv, scp_command_front, scp_command_suffix, scp_recv_command_suffix,
      dashOValues_o, dashOValues_ne, dashOValues_nil, htf,
      send_dest_ne_dash_o host, recv_src_ne_dash_o host]

/-- Claim C5: among the -o option values of a MAC trial argv the only
Macs option is the candidate under test and the only Ciphers option is
aes256-ctr, while among the -o option values of a cipher trial argv the
only Ciphers option is the candidate under test and there is no Macs
option at all. -/
theorem claim_C5 (host m c : String) (receive : Bool) :
    (dashOValues (mac_argv host receive m)).filter isMacsOpt = ["Macs=" ++ m]
  ∧ (dashOValues (mac_argv host receive m)).filter isCiphersOpt
      = ["Ciphers=aes256-ctr"]
  ∧ (dashOValues (cipher_argv host receive c)).filter isCiphersOpt
      = ["Ciphers=" ++ c]
  ∧ (dashOValues (cipher_argv host receive c)).filter isMacsOpt = [] := by
  rw [dashOValues_mac host m receive, dashOValues_cipher host c receive]
  exact ⟨rfl, rfl, rfl, rfl⟩

theorem claim_C10_witness :
    output_as_tsv (test_kex env0 "h" []) = [[Cell.str "algorithm", Cell.str "time"]]
  ∧ output_as_tsv [⟨"hmac-md5", none, false⟩]
      = [[Cell.str "algorithm", Cell.str "time"]]
  ∧ fs_write (fun _ => none) (output_file "mac-send")
      (output_as_tsv [⟨"hmac-md5", none, false⟩]) (output_file "mac-send")
      = some [[Cell.str "algorithm", Cell.str "time"]] :=
  claim_C10 env0 "h" "mac-send" (fun _ => none) [⟨"hmac-md5", none, false⟩]
    (by decide)

end BenchSsh
